import Mathlib

/-
Verification of the yarpc server core: the request dispatch state machine
(Server._handle_request), the reply operation (Server.reply) and the command
registry (Server.register_command / Server.remove_command) from
src/yarpc/server.py, shallowly embedded in Lean.

Python methods on the Server object are translated into pure functions that
take the server state explicitly and return the (possibly updated) state
together with their visible effect: the list of wire payloads handed to the
transport send operation, or an Except value modelling a raised exception.
-/

namespace Yarpc

/-- Payload values carried in requests and responses (the opaque mapping
values of the serialization collaborator). -/
inductive Val where
  | vbool : Bool → Val
  | vint : Int → Val
  | vstr : String → Val
  | vmap : List (String × Val) → Val

/-- Modelled from the spec: src/yarpc/enums.py (StatusCode) is not part of the
sources given; the spec fixes a closed enumeration OK, UNKNOWN_COMMAND,
BAD_PARAMS, INTERNAL_ERROR. The numeric codes are representative distinct
values; no claim depends on the particular numbers. -/
inductive StatusCode where
  | OK
  | UNKNOWN_COMMAND
  | BAD_PARAMS
  | INTERNAL_ERROR
deriving DecidableEq

/-- The integer value of a status code, as placed in the wire payload. -/
def StatusCode.value : StatusCode → Nat
  | .OK => 0
  | .UNKNOWN_COMMAND => 1
  | .BAD_PARAMS => 2
  | .INTERNAL_ERROR => 3

/-- Modelled from the spec: src/yarpc/constants.py (NoValue) is not part of
the sources given. A data argument to the reply operation is either the
NoValue sentinel, meaning no data field at all, or an actual value. -/
inductive DataArg where
  | noValue
  | value : Val → DataArg

/-- The Option of data actually written into the payload: Server.reply adds
the d key exactly when the data argument is not the NoValue sentinel. -/
def DataArg.toOption : DataArg → Option Val
  | .noValue => none
  | .value v => some v

/-- Outcome of awaiting the coroutine produced by a handler call: either the
await raised an Exception (carrying str of the exception), or it returned a
value, where Option.none models the Python None result. -/
inductive AwaitOutcome where
  | raised : String → AwaitOutcome
  | value : Option Val → AwaitOutcome

/-- Outcome of the call expression fn applied to request and its unpacked
payload fields. Calling an async function never runs its body, so the only
error a call itself can raise is the TypeError of a failed argument binding;
otherwise the call yields a coroutine, whose later await has an
AwaitOutcome. Modelled from the spec: src/yarpc/typing.py (the handler type)
is not part of the sources given; the spec describes a handler as accepting
a Request plus keyword fields and producing, asynchronously, a result or
nothing. -/
inductive CallOutcome where
  | typeError : String → CallOutcome
  | coroutine : AwaitOutcome → CallOutcome

/-- A request as handed to the dispatch engine. Modelled from the spec:
src/yarpc/request.py (Request) is not part of the sources given; the spec
lists command index, raw payload mapping, and optional originating address
(absent means no reply is expected). The back-reference to the owning
server is passed explicitly as a ServerState argument. -/
structure Request where
  command_index : Int
  data : List (String × Val)
  address : Option String

/-- A registered command handler, as observed by the dispatch engine:
applying it to a Request gives the outcome of the call-and-await. -/
def Handler := Request → CallOutcome

/-- The mutable state of Server: node identifier and the command registry
dict (association list keyed by command index, in insertion order). -/
structure ServerState where
  node : String
  commands : List (Int × Handler)

/-- One wire payload built by Server.reply: keys s (status value),
n (node), a (address) and the optional d (data). -/
structure Payload where
  s : Nat
  n : String
  a : String
  d : Option Val

/-- Python exceptions relevant to the dispatch code paths: TypeError
(caught at the handler call site) and any other Exception. -/
inductive PyExc where
  | typeError : String → PyExc
  | exception : String → PyExc

/-- The str of the exception, used to build error reply payloads. -/
def PyExc.msg : PyExc → String
  | .typeError m => m
  | .exception m => m

/-- Server.register_command: raises ValueError if the index is registered,
otherwise stores the handler and returns the index. -/
def register_command (s : ServerState) (index : Int) (fn : Handler) :
    ServerState × Except String Int :=
  if (s.commands.lookup index).isSome then
    (s, Except.error "Command with index %d already registered")
  else
    ({ s with commands := s.commands ++ [(index, fn)] }, Except.ok index)

/-- Server.remove_command: raises ValueError if the index is not registered,
otherwise pops the entry and returns the handler. -/
def remove_command (s : ServerState) (index : Int) :
    ServerState × Except String Handler :=
  match s.commands.lookup index with
  | none => (s, Except.error "Command with index %d is not registered")
  | some fn =>
      ({ s with commands := s.commands.filter (fun p => !(p.1 == index)) },
       Except.ok fn)

/-- Server.reply: with no address it is a no-op (returns none = nothing
sent); otherwise it builds the payload with status value, node and address,
adding the d field exactly when data is not the NoValue sentinel, and hands
it to the transport (returns some payload). -/
def ServerState.reply (s : ServerState) (address : Option String)
    (status : StatusCode) (data : DataArg) : Option Payload :=
  match address with
  | none => none
  | some a => some { s := status.value, n := s.node, a := a, d := data.toOption }

/-- Modelled from the spec: src/yarpc/request.py (Request._reply_with_status)
is not part of the sources given. Per the spec, every reply branch of the
dispatch engine builds its Response through the server reply operation,
using the Request address; the data argument defaults to the NoValue
sentinel when a branch carries no payload. -/
def reply_with_status (s : ServerState) (req : Request)
    (data : DataArg) (status : StatusCode) : Option Payload :=
  s.reply req.address status data

/-- Modelled from the spec: src/yarpc/request.py (Request.reply) is not part
of the sources given. Per the spec, the Reply-Success branch sends the
handler result with status OK through the same reply path. -/
def request_reply (s : ServerState) (req : Request) (v : Val) : Option Payload :=
  reply_with_status s req (DataArg.value v) StatusCode.OK

/-- The call expression fn applied to request and payload fields, as an
Except: a binding failure is a raised TypeError, otherwise the coroutine is
produced. -/
def call_command (fn : Handler) (req : Request) : Except PyExc AwaitOutcome :=
  match fn req with
  | .typeError m => Except.error (PyExc.typeError m)
  | .coroutine a => Except.ok a

/-- Awaiting the coroutine, as an Except: a handler failure is a raised
Exception, otherwise the result value (Option.none models Python None). -/
def await_command (a : AwaitOutcome) : Except PyExc (Option Val) :=
  match a with
  | .raised m => Except.error (PyExc.exception m)
  | .value v => Except.ok v

/-- Server._handle_request, translated clause by clause. The result is the
state after dispatch together with the list of payloads handed to the
transport; the Except layer models an exception escaping the method. The
call site catches only TypeError (other call-time exceptions propagate,
mirroring the first try block), and the await site catches every Exception
(the second try block). A Python None result terminates with no reply;
otherwise the result is sent through request.reply. -/
def handle_request (s : ServerState) (req : Request) :
    Except PyExc (ServerState × List Payload) :=
  match s.commands.lookup req.command_index with
  | none =>
      Except.ok
        (s, (reply_with_status s req DataArg.noValue StatusCode.UNKNOWN_COMMAND).toList)
  | some fn =>
    match call_command fn req with
    | Except.error (PyExc.typeError m) =>
        Except.ok
          (s, (reply_with_status s req (DataArg.value (Val.vstr m)) StatusCode.BAD_PARAMS).toList)
    | Except.error e => Except.error e
    | Except.ok command =>
      match await_command command with
      | Except.error e =>
          Except.ok
            (s, (reply_with_status s req (DataArg.value (Val.vstr e.msg)) StatusCode.INTERNAL_ERROR).toList)
      | Except.ok none => Except.ok (s, [])
      | Except.ok (some v) => Except.ok (s, (request_reply s req v).toList)

/-- Number of payloads the dispatch of one request hands to the transport. -/
def sentCount (s : ServerState) (req : Request) : Nat :=
  match handle_request s req with
  | Except.ok (_, l) => l.length
  | Except.error _ => 0

/-- The dispatch reaches the No-Reply branch: a handler was found and its
awaited result is the Python None sentinel. -/
def handler_suppressed (s : ServerState) (req : Request) : Bool :=
  match s.commands.lookup req.command_index with
  | none => false
  | some fn =>
    match fn req with
    | .coroutine (.value none) => true
    | _ => false

/- Helper lemmas on association list lookup and removal. -/

lemma lookup_append (l l' : List (Int × Handler)) (k : Int) :
    (l ++ l').lookup k =
      match l.lookup k with
      | some v => some v
      | none => l'.lookup k := by
  induction l with
  | nil => rfl
  | cons p t ih =>
      obtain ⟨a, b⟩ := p
      by_cases h : k = a
      · simp [List.lookup, h]
      · have hb : (k == a) = false := beq_eq_false_iff_ne.mpr h
        simp [List.lookup, hb, ih]

lemma filter_out_absent_key (l : List (Int × Handler)) (k : Int)
    (h : l.lookup k = none) : l.filter (fun p => !(p.1 == k)) = l := by
  induction l with
  | nil => rfl
  | cons p t ih =>
      obtain ⟨a, b⟩ := p
      by_cases hk : k = a
      · simp [List.lookup, hk] at h
      · have hb : (k == a) = false := beq_eq_false_iff_ne.mpr hk
        have hb' : (a == k) = false := beq_eq_false_iff_ne.mpr (Ne.symm hk)
        simp only [List.lookup, hb] at h
        simp [List.filter, hb', ih h]

/- Registry fixtures used by concrete witnesses. -/

/-- A handler whose await returns a value. -/
def handlerOk (v : Val) : Handler :=
  fun _ => CallOutcome.coroutine (AwaitOutcome.value (some v))

/-- A handler whose await returns Python None. -/
def handlerNone : Handler :=
  fun _ => CallOutcome.coroutine (AwaitOutcome.value none)

/-- A handler whose await raises an Exception. -/
def handlerRaise (m : String) : Handler :=
  fun _ => CallOutcome.coroutine (AwaitOutcome.raised m)

/-- A handler whose argument binding fails with a TypeError. -/
def handlerBadBind (m : String) : Handler :=
  fun _ => CallOutcome.typeError m

/-- A server with an empty registry. -/
def srvEmpty : ServerState := { node := "node0", commands := [] }

/-- A request for index 7 with an address present. -/
def reqAddr : Request := { command_index := 7, data := [], address := some "A" }

/-- Claim C9: register_command fails with the duplicate-index error when the
index is already present and leaves the registry unchanged, so the original
handler is retained; on a fresh index it stores the handler, keeps every
other entry and the node, and returns the index. -/
theorem C9_register_command (s : ServerState) (i : Int) (f : Handler) :
    ((s.commands.lookup i).isSome = true →
        register_command s i f =
          (s, Except.error "Command with index %d already registered")) ∧
    (s.commands.lookup i = none →
        (register_command s i f).2 = Except.ok i ∧
        (register_command s i f).1.node = s.node ∧
        (register_command s i f).1.commands.lookup i = some f ∧
        ∀ j : Int, (j == i) = false →
          (register_command s i f).1.commands.lookup j = s.commands.lookup j) := by
  constructor
  · intro h
    simp [register_command, h]
  · intro h
    refine ⟨?_, ?_, ?_, ?_⟩
    · simp [register_command, h]
    · simp [register_command, h]
    · simp [register_command, h, lookup_append, List.lookup]
    · intro j hj
      simp [register_command, h, lookup_append, List.lookup, hj]
      cases s.commands.lookup j <;> simp

/-- Sample handler stored by registry witnesses. -/
def fW : Handler := handlerOk (Val.vbool true)

/-- Another handler, registered first in the duplicate-index witness. -/
def gW : Handler := handlerNone

/-- A server already holding index 1. -/
def srvDup : ServerState := { node := "nodeD", commands := [(1, gW)] }

/-- Witness for C9 at concrete inputs: a duplicate registration at index 1
fails and keeps the state; a fresh registration at index 1 on an empty
registry succeeds, stores the handler and preserves lookups at index 2. -/
theorem C9_register_command_witness :
    register_command srvDup 1 fW =
      (srvDup, Except.error "Command with index %d already registered") ∧
    (register_command srvEmpty 1 fW).2 = Except.ok 1 ∧
    (register_command srvEmpty 1 fW).1.commands.lookup 1 = some fW ∧
    (register_command srvEmpty 1 fW).1.commands.lookup 2 =
      srvEmpty.commands.lookup 2 :=
  ⟨(C9_register_command srvDup 1 fW).1 rfl,
   ((C9_register_command srvEmpty 1 fW).2 rfl).1,
   ((C9_register_command srvEmpty 1 fW).2 rfl).2.2.1,
   ((C9_register_command srvEmpty 1 fW).2 rfl).2.2.2 2 rfl⟩

/-- Claim C10: on a fresh index, register_command followed by remove_command
succeeds, returns exactly the registered handler, and restores the server
state, registry included, to what it was before the pair of operations. -/
theorem C10_register_then_remove (s : ServerState) (i : Int) (f : Handler)
    (h : s.commands.lookup i = none) :
    remove_command (register_command s i f).1 i = (s, Except.ok f) := by
  have hreg : (register_command s i f).1 =
      { s with commands := s.commands ++ [(i, f)] } := by
    simp [register_command, h]
  have hlook : (s.commands ++ [(i, f)]).lookup i = some f := by
    simp [lookup_append, h, List.lookup]
  rw [hreg]
  simp only [remove_command, hlook]
  have hfilter : (s.commands ++ [(i, f)]).filter (fun p => !(p.1 == i)) =
      s.commands := by
    rw [List.filter_append, filter_out_absent_key s.commands i h]
    simp [List.filter]
  simp [hfilter]

/-- Witness for C10 at a concrete input: registering index 5 on the empty
registry and removing it returns the handler and the original state. -/
theorem C10_register_then_remove_witness :
    remove_command (register_command srvEmpty 5 fW).1 5 =
      (srvEmpty, Except.ok fW) :=
  C10_register_then_remove srvEmpty 5 fW rfl

/-- Claim C8: the reply operation is a no-op when the address is absent,
regardless of status and data; when the address is present the sent payload
carries the status code value, the node identifier and the address, and its
data field is present exactly when the data argument is not the NoValue
sentinel. -/
theorem C8_reply (s : ServerState) (status : StatusCode) (data : DataArg)
    (a : String) :
    s.reply none status data = none ∧
    s.reply (some a) status data =
      some { s := status.value, n := s.node, a := a, d := data.toOption } ∧
    (data.toOption = none ↔ data = DataArg.noValue) := by
  refine ⟨rfl, rfl, ?_⟩
  cases data <;> simp [DataArg.toOption]

/-- Claim C3: when no handler is registered for the request index, dispatch
terminates normally with the state unchanged, invoking the reply path
exactly once with status UNKNOWN_COMMAND and the NoValue data: if the
address is present exactly one payload with the UNKNOWN_COMMAND status value
and no data field is sent, and if the address is absent nothing is sent. -/
theorem C3_unknown_command (s : ServerState) (req : Request)
    (h : s.commands.lookup req.command_index = none) :
    handle_request s req =
      Except.ok (s,
        match req.address with
        | none => []
        | some a =>
            [{ s := StatusCode.UNKNOWN_COMMAND.value, n := s.node, a := a,
               d := none }]) := by
  simp only [handle_request, h, reply_with_status, ServerState.reply,
    DataArg.toOption]
  cases req.address <;> rfl

/-- Witness for C3 at a concrete input: index 7 on the empty registry with
address A yields one UNKNOWN_COMMAND payload with no data. -/
theorem C3_unknown_command_witness :
    handle_request srvEmpty reqAddr =
      Except.ok (srvEmpty,
        [{ s := StatusCode.UNKNOWN_COMMAND.value, n := "node0", a := "A",
           d := none }]) :=
  C3_unknown_command srvEmpty reqAddr rfl

/-- Claim C4: when the registered handler is found but its argument binding
fails with a TypeError, no coroutine is produced (so nothing is awaited) and
dispatch terminates with the state unchanged, invoking the reply path
exactly once with status BAD_PARAMS and the failure message as data: one
such payload is sent when the address is present, none when it is absent. -/
theorem C4_bad_params (s : ServerState) (req : Request) (fn : Handler)
    (m : String) (hfn : s.commands.lookup req.command_index = some fn)
    (hcall : fn req = CallOutcome.typeError m) :
    call_command fn req = Except.error (PyExc.typeError m) ∧
    handle_request s req =
      Except.ok (s,
        match req.address with
        | none => []
        | some a =>
            [{ s := StatusCode.BAD_PARAMS.value, n := s.node, a := a,
               d := some (Val.vstr m) }]) := by
  have hc : call_command fn req = Except.error (PyExc.typeError m) := by
    simp [call_command, hcall]
  refine ⟨hc, ?_⟩
  simp only [handle_request, hfn, hc, reply_with_status, ServerState.reply,
    DataArg.toOption]
  cases req.address <;> rfl

/-- A server whose only command, at index 7, fails argument binding. -/
def srvBad : ServerState :=
  { node := "node0", commands := [(7, handlerBadBind "missing field x")] }

/-- Witness for C4 at a concrete input: a binding failure at index 7 with
address A yields one BAD_PARAMS payload carrying the failure message. -/
theorem C4_bad_params_witness :
    handle_request srvBad reqAddr =
      Except.ok (srvBad,
        [{ s := StatusCode.BAD_PARAMS.value, n := "node0", a := "A",
           d := some (Val.vstr "missing field x") }]) :=
  (C4_bad_params srvBad reqAddr (handlerBadBind "missing field x")
      "missing field x" rfl rfl).2

/-- Claim C5: when awaiting the handler raises any Exception, dispatch
terminates normally with the server state (node and command registry)
returned unchanged, invoking the reply path exactly once with status
INTERNAL_ERROR and the error message as data: one such payload is sent when
the address is present, none when it is absent; nothing escapes to the
caller, so subsequent requests are processed from the same state. -/
theorem C5_internal_error (s : ServerState) (req : Request) (fn : Handler)
    (m : String) (hfn : s.commands.lookup req.command_index = some fn)
    (hcall : fn req = CallOutcome.coroutine (AwaitOutcome.raised m)) :
    handle_request s req =
      Except.ok (s,
        match req.address with
        | none => []
        | some a =>
            [{ s := StatusCode.INTERNAL_ERROR.value, n := s.node, a := a,
               d := some (Val.vstr m) }]) := by
  simp only [handle_request, hfn, call_command, hcall, await_command,
    PyExc.msg, reply_with_status, ServerState.reply, DataArg.toOption]
  cases req.address <;> rfl

/-- A server whose only command, at index 7, raises while awaited. -/
def srvRaise : ServerState :=
  { node := "node0", commands := [(7, handlerRaise "boom")] }

/-- Witness for C5 at a concrete input: a handler raising boom at index 7
with address A yields one INTERNAL_ERROR payload carrying the message, and
the returned state equals the input state. -/
theorem C5_internal_error_witness :
    handle_request srvRaise reqAddr =
      Except.ok (srvRaise,
        [{ s := StatusCode.INTERNAL_ERROR.value, n := "node0", a := "A",
           d := some (Val.vstr "boom") }]) :=
  C5_internal_error srvRaise reqAddr (handlerRaise "boom") "boom" rfl rfl

/-- Claim C6: when the awaited handler result is the Python None sentinel,
dispatch terminates normally with the state unchanged and sends nothing,
whether or not the request address is present; this is the No-Reply branch,
not an error. -/
theorem C6_none_result_silent (s : ServerState) (req : Request)
    (fn : Handler) (hfn : s.commands.lookup req.command_index = some fn)
    (hcall : fn req = CallOutcome.coroutine (AwaitOutcome.value none)) :
    handle_request s req = Except.ok (s, []) := by
  simp [handle_request, hfn, call_command, hcall, await_command]

/-- A server whose only command, at index 7, returns the None sentinel. -/
def srvNone : ServerState := { node := "node0", commands := [(7, handlerNone)] }

/-- Witness for C6 at a concrete input: the None-returning handler at index
7 sends nothing even though the request address A is present. -/
theorem C6_none_result_silent_witness :
    reqAddr.address = some "A" ∧
    handle_request srvNone reqAddr = Except.ok (srvNone, []) :=
  ⟨rfl, C6_none_result_silent srvNone reqAddr handlerNone rfl rfl⟩

/-- Claim C7: when the awaited handler result is a value other than the
Python None sentinel and no error occurred, dispatch terminates normally
with the state unchanged, invoking the reply path exactly once with status
OK and that result as data: one OK payload carrying the result is sent when
the address is present, none when it is absent. -/
theorem C7_ok_result (s : ServerState) (req : Request) (fn : Handler)
    (v : Val) (hfn : s.commands.lookup req.command_index = some fn)
    (hcall : fn req = CallOutcome.coroutine (AwaitOutcome.value (some v))) :
    handle_request s req =
      Except.ok (s,
        match req.address with
        | none => []
        | some a =>
            [{ s := StatusCode.OK.value, n := s.node, a := a, d := some v }]) := by
  simp only [handle_request, hfn, call_command, hcall, await_command,
    request_reply, reply_with_status, ServerState.reply, DataArg.toOption]
  cases req.address <;> rfl

/-- The handler result used by the end-to-end success witness. -/
def okVal : Val := Val.vmap [("ok", Val.vbool true)]

/-- A server whose only command, at index 7, returns okVal. -/
def srvOk : ServerState := { node := "node0", commands := [(7, handlerOk okVal)] }

/-- Witness for C7 at a concrete input, matching the end-to-end example: a
handler at index 7 returning the mapping ok/true, dispatched with address A,
yields exactly one payload with status OK, the server node, address A and
that mapping as data. -/
theorem C7_ok_result_witness :
    handle_request srvOk reqAddr =
      Except.ok (srvOk,
        [{ s := StatusCode.OK.value, n := "node0", a := "A",
           d := some okVal }]) :=
  C7_ok_result srvOk reqAddr (handlerOk okVal) okVal rfl rfl

/-- Claim C2: dispatching never lets a failure escape: for every server
state, registry, handler behaviour and request, handle_request returns
normally (the Except error channel is never used), because the only call
site exception of an async handler is the TypeError caught by the first
except clause and the await site catches every Exception. -/
theorem C2_no_escape (s : ServerState) (req : Request) :
    (handle_request s req).isOk = true := by
  unfold handle_request
  cases hl : s.commands.lookup req.command_index with
  | none => rfl
  | some fn =>
      cases hc : fn req with
      | typeError m => simp [call_command, hc, Except.isOk, Except.toBool]
      | coroutine a =>
          cases a with
          | raised m => simp [call_command, hc, await_command, Except.isOk, Except.toBool]
          | value v =>
              cases v with
              | none => simp [call_command, hc, await_command, Except.isOk, Except.toBool]
              | some w => simp [call_command, hc, await_command, Except.isOk, Except.toBool]

/-- Counterexample to claim C1 as stated: a request with an address present
whose handler returns the Python None sentinel produces zero responses, not
exactly one. -/
theorem C1_counterexample :
    reqAddr.address.isSome = true ∧
    sentCount srvNone reqAddr = 0 ∧
    sentCount srvNone reqAddr ≠ 1 := by
  refine ⟨rfl, rfl, ?_⟩
  simp [sentCount, handle_request, srvNone, reqAddr, handlerNone,
    call_command, await_command, List.lookup]

/-- Claim C1 amended: dispatch sends exactly one response when the request
address is present and the dispatch does not reach the No-Reply branch
(a found handler whose awaited result is the None sentinel), and sends
nothing otherwise; in particular an absent address never produces a
response. -/
theorem C1_response_count (s : ServerState) (req : Request) :
    sentCount s req =
      if req.address.isSome && !(handler_suppressed s req) then 1 else 0 := by
  unfold sentCount handler_suppressed
  cases hl : s.commands.lookup req.command_index with
  | none =>
      simp only [handle_request, hl, reply_with_status, ServerState.reply]
      cases req.address <;> simp
  | some fn =>
      cases hc : fn req with
      | typeError m =>
          simp only [handle_request, hl, call_command, hc,
            reply_with_status, ServerState.reply]
          cases req.address <;> simp
      | coroutine a =>
          cases a with
          | raised m =>
              simp only [handle_request, hl, call_command, hc, await_command,
                reply_with_status, ServerState.reply]
              cases req.address <;> simp
          | value v =>
              cases v with
              | none =>
                  simp only [handle_request, hl, call_command, hc,
                    await_command]
                  cases req.address <;> simp
              | some w =>
                  simp only [handle_request, hl, call_command, hc,
                    await_command, request_reply, reply_with_status,
                    ServerState.reply]
                  cases req.address <;> simp
